import Mathlib

/-!
Verification of the image-processor repository (client upload widget and
server relay handler) against its specification.

Text is modelled as `List Char`.  The server handler
(`src/api/process.ts`, `handler` and `stripFences`) is embedded as a pure
function from the request, the provider credential and the outcome of the
external model call to the HTTP response plus a flag recording whether the
external call was attempted.  The client widget (`App` in the source,
`acceptFile` / `onDrop` / `handleProcess`) is embedded as a state record
with transition functions that also emit the browser-level effects they
perform (object-URL creation and revocation, the outbound request).
-/

namespace ImageProcessor

/-- JavaScript whitespace class `\s` restricted to the ASCII range
(space, tab, newline, carriage return, vertical tab, form feed). -/
def jsWs (c : Char) : Bool :=
  c = ' ' || c = '\t' || c = '\n' || c = '\r' || c = '\x0b' || c = '\x0c'

/-- `startsWithL p l` holds when `p` is an initial segment of `l`
(the embedding of JavaScript `String.prototype.startsWith`). -/
def startsWithL : List Char → List Char → Bool
  | [], _ => true
  | _ :: _, [] => false
  | p :: ps, c :: cs => p == c && startsWithL ps cs

/-- `containsL pat l` holds when `pat` occurs as a contiguous substring
of `l` (the embedding of JavaScript `String.prototype.includes`). -/
def containsL (pat : List Char) : List Char → Bool
  | [] => startsWithL pat []
  | c :: cs => startsWithL pat (c :: cs) || containsL pat cs

/-- Drop a case-insensitive fence language tag (`svg`, `xml` or `html`)
from the front of the text: the `(?:svg|xml|html)?` part of the first
regular expression in `stripFences`. -/
def fenceLang (l : List Char) : List Char :=
  if (l.take 3).map Char.toLower = "svg".data ∨ (l.take 3).map Char.toLower = "xml".data then
    l.drop 3
  else if (l.take 4).map Char.toLower = "html".data then
    l.drop 4
  else l

/-- `text.replace(/^```(?:svg|xml|html)?\s*/i, '')`: when the text begins
with a fence marker, remove it, an optional language tag, and the greedy
run of whitespace that follows. -/
def stripLeadFence (l : List Char) : List Char :=
  if startsWithL "```".data l then (fenceLang (l.drop 3)).dropWhile jsWs else l

/-- `text.replace(/\s*```$/, '')`: when the text ends with a fence marker,
remove it together with the maximal run of whitespace before it (the
leftmost match of `\s*` before the final backticks). -/
def stripTrailFence (l : List Char) : List Char :=
  if startsWithL "```".data l.reverse then
    ((l.reverse.drop 3).dropWhile jsWs).reverse
  else l

/-- `String.prototype.trim`: drop leading and trailing whitespace. -/
def trimL (l : List Char) : List Char :=
  ((l.dropWhile jsWs).reverse.dropWhile jsWs).reverse

/-- `stripFences` from `src/api/process.ts`: strip a leading fence marker,
then a trailing fence marker, then trim. -/
def stripFences (l : List Char) : List Char :=
  trimL (stripTrailFence (stripLeadFence l))

/-- Request body: `imageData` and `mimeType` as sent by the client; `none`
models an absent key, `some []` a key bound to the empty string. -/
structure ReqBody where
  imageData : Option (List Char)
  mimeType : Option (List Char)
deriving DecidableEq

/-- Inbound HTTP request: method and optional JSON body
(`req.body ?? {}` in the source). -/
structure Request where
  method : List Char
  body : Option ReqBody
deriving DecidableEq

/-- The JSON response produced by the handler: status code plus the
possible fields `error`, `raw`, `svg`, `animated`. -/
structure Response where
  status : Nat
  error : Option (List Char)
  raw : Option (List Char)
  svg : Option (List Char)
  animated : Option Bool
deriving DecidableEq

/-- Outcome of the external model call: either a reply whose
`choices[0].message.content` is the given optional text, or a thrown
error with the given message. -/
inductive ModelOutcome where
  | reply (content : Option (List Char))
  | failure (message : List Char)
deriving DecidableEq

/-- JavaScript truthiness of an optional string: absent and empty are
both falsy. -/
def truthy : Option (List Char) → Bool
  | none => false
  | some s => !s.isEmpty

/-- Result of one handler invocation: the response, and whether the
external model call was attempted. -/
structure HandlerResult where
  resp : Response
  calledModel : Bool
deriving DecidableEq

/-- The default export of `src/api/process.ts`.  `apiKey` is
`process.env.GROQ_API_KEY` (absent or a string); `outcome` is what the
awaited Groq call produces when it is reached. -/
def handler (req : Request) (apiKey : Option (List Char)) (outcome : ModelOutcome) :
    HandlerResult :=
  if req.method ≠ "POST".data then
    ⟨⟨405, some "Method not allowed".data, none, none, none⟩, false⟩
  else
    let b := req.body.getD ⟨none, none⟩
    if !truthy b.imageData || !truthy b.mimeType then
      ⟨⟨400, some "Missing imageData or mimeType".data, none, none, none⟩, false⟩
    else if !truthy apiKey then
      ⟨⟨500, some "GROQ_API_KEY is not configured on the server".data, none, none, none⟩, false⟩
    else
      match outcome with
      | .failure msg => ⟨⟨500, some msg, none, none, none⟩, true⟩
      | .reply content =>
        let svg := stripFences (content.getD [])
        if !startsWithL "<svg".data svg then
          ⟨⟨500, some "Model did not return a valid SVG".data, some (svg.take 300), none, none⟩,
            true⟩
        else
          let hasAnim := containsL "@keyframes".data svg || containsL "animation".data svg
          ⟨⟨200, none, none, some svg, some hasAnim⟩, true⟩

/-! ### Client upload widget (`src/unnamed/part_000`) -/

/-- The widget's finite state machine. -/
inductive UploadState where
  | idle
  | dragging
  | ready
  | processing
deriving DecidableEq

/-- A file handle from drop or picker: declared content type and raw
bytes. -/
structure File where
  type : List Char
  data : List Nat
deriving DecidableEq

/-- The held image: the file plus its display reference (the object URL,
modelled as an identifier). -/
structure SelectedImage where
  file : File
  url : Nat
deriving DecidableEq

/-- Component state: `uploadState`, `image`, `svgOutput`, `error`. -/
structure Widget where
  uploadState : UploadState
  image : Option SelectedImage
  svgOutput : Option (List Char)
  error : Option (List Char)
deriving DecidableEq

/-- Browser-level effects a transition performs, in order. -/
inductive Effect where
  | createUrl (id : Nat)
  | revokeUrl (id : Nat)
  | sendRequest (img : SelectedImage)
deriving DecidableEq

/-- `acceptFile`: reject non-image content types with no state change;
otherwise create a display reference for the new file, revoke the
previous one if an image was held, clear result and error, and move to
`ready`.  `freshUrl` is the object URL the browser allocates. -/
def acceptFile (w : Widget) (f : File) (freshUrl : Nat) : Widget × List Effect :=
  if !startsWithL "image/".data f.type then (w, [])
  else
    let revokes := match w.image with
      | some prev => [Effect.revokeUrl prev.url]
      | none => []
    ({ w with image := some ⟨f, freshUrl⟩
              svgOutput := none
              error := none
              uploadState := UploadState.ready },
     Effect.createUrl freshUrl :: revokes)

/-- `onDragOver`: always moves to `dragging`. -/
def onDragOver (w : Widget) : Widget :=
  { w with uploadState := UploadState.dragging }

/-- `onDragLeave`: back to `ready` when an image is held, else `idle`. -/
def onDragLeave (w : Widget) : Widget :=
  { w with uploadState := if w.image.isSome then UploadState.ready else UploadState.idle }

/-- `onDrop`: take the first dropped file, if any, and pass it to
`acceptFile`.  The handler performs no state change of its own. -/
def onDrop (w : Widget) (dropped : Option File) (freshUrl : Nat) : Widget × List Effect :=
  match dropped with
  | some f => acceptFile w f freshUrl
  | none => (w, [])

/-- Outcome of one `handleProcess` run past the image guard:
encoding failed before the fetch; a 2xx response with an optional `svg`
field; a non-2xx response whose parsed body has an optional `error`
field; or a thrown error (network failure or malformed body), carrying
`some message` when it is an `Error` and `none` otherwise. -/
inductive ProcessOutcome where
  | encodeFailed
  | ok (svg : Option (List Char))
  | httpError (errField : Option (List Char))
  | thrown (errMessage : Option (List Char))
deriving DecidableEq

/-- `handleProcess`: return if no image is held; otherwise enter
`processing`, clear error and output, perform the request, record the
result or the error message, and in all cases end at `ready`
(the `finally` block). -/
def handleProcess (w : Widget) (outcome : ProcessOutcome) : Widget × List Effect :=
  match w.image with
  | none => (w, [])
  | some img =>
    let w1 : Widget :=
      { w with uploadState := UploadState.processing, error := none, svgOutput := none }
    match outcome with
    | .encodeFailed =>
        ({ w1 with error := some "Something went wrong".data
                   uploadState := UploadState.ready }, [])
    | .ok svg =>
        ({ w1 with svgOutput := svg
                   uploadState := UploadState.ready }, [Effect.sendRequest img])
    | .httpError errField =>
        let msg := if truthy errField then errField.getD [] else "Processing failed".data
        ({ w1 with error := some msg
                   uploadState := UploadState.ready }, [Effect.sendRequest img])
    | .thrown errMessage =>
        ({ w1 with error := some (errMessage.getD "Something went wrong".data)
                   uploadState := UploadState.ready }, [Effect.sendRequest img])

/-- The process button's `disabled` attribute: `!image || isProcessing`. -/
def processDisabled (w : Widget) : Bool :=
  w.image.isNone || decide (w.uploadState = UploadState.processing)

/-- The process trigger as exposed in the UI: a disabled button does not
fire its click handler, so the trigger is inert exactly when
`processDisabled` holds. -/
def processTrigger (w : Widget) (outcome : ProcessOutcome) : Widget × List Effect :=
  if processDisabled w then (w, []) else handleProcess w outcome

/-- Semantics of the URL effects on the multiset of live display
references: creation appends, revocation removes one occurrence. -/
def applyEffect (live : List Nat) : Effect → List Nat
  | .createUrl id => live ++ [id]
  | .revokeUrl id => live.erase id
  | .sendRequest _ => live

/-- Run a list of effects over the live display references. -/
def applyEffects (live : List Nat) (effs : List Effect) : List Nat :=
  effs.foldl applyEffect live

/-- Is this effect a revocation? -/
def isRevoke : Effect → Bool
  | .revokeUrl _ => true
  | _ => false

/-- Is this effect a creation? -/
def isCreate : Effect → Bool
  | .createUrl _ => true
  | _ => false

/-- Is this effect an outbound request? -/
def isReq : Effect → Bool
  | .sendRequest _ => true
  | _ => false

/-! ### Helper lemmas -/

/-- An absent optional string is falsy. -/
theorem truthy_none : truthy none = false := rfl

/-- `startsWithL` agrees with `List.isPrefixOf`. -/
theorem startsWithL_eq (p l : List Char) : startsWithL p l = p.isPrefixOf l := by
  induction p generalizing l with
  | nil => cases l <;> rfl
  | cons a as ih =>
    cases l with
    | nil => rfl
    | cons b bs => simp [startsWithL, List.isPrefixOf, ih]

/-- `startsWithL` decides the prefix relation. -/
theorem startsWithL_iff (p l : List Char) : startsWithL p l = true ↔ p <+: l := by
  rw [startsWithL_eq]; exact List.isPrefixOf_iff_prefix

/-- Stripping the leading fence marker of an `svg`-tagged fence reduces to
dropping the whitespace after the tag. -/
theorem lead_svg (x : List Char) :
    stripLeadFence ('`' :: '`' :: '`' :: 's' :: 'v' :: 'g' :: '\n' :: x) =
      x.dropWhile jsWs := rfl

/-- Stripping the leading fence marker of an untagged fence reduces to
dropping the whitespace after the backticks. -/
theorem lead_plain (x : List Char) :
    stripLeadFence ('`' :: '`' :: '`' :: '\n' :: x) = x.dropWhile jsWs := rfl

/-- When the reversed text is a fence marker, a newline, then `'>'`,
stripping the trailing fence keeps everything up to the `'>'`. -/
theorem stripTrail_eq (l u : List Char)
    (h : l.reverse = '`' :: '`' :: '`' :: '\n' :: '>' :: u) :
    stripTrailFence l = ('>' :: u).reverse := by
  unfold stripTrailFence
  rw [h]
  rfl

/-- Trimming fixes a string that starts with `'<'` and ends with `'>'`. -/
theorem trimL_eq (s r u : List Char) (hh : s = '<' :: r) (hu : s.reverse = '>' :: u) :
    trimL s = s := by
  have e1 : s.dropWhile jsWs = s := by rw [hh]; rfl
  have e2 : s.reverse.dropWhile jsWs = s.reverse := by rw [hu]; rfl
  unfold trimL
  rw [e1, e2, List.reverse_reverse]

/-! ### Claim theorems -/

/-- Claim C1: every `handleProcess` run that starts from state `ready`
with an image held ends with the widget state equal to `ready`, on every
outcome (success, non-2xx response, network error, malformed body,
encoding failure); the state is never left at `processing`. -/
theorem C1_handleProcess_ends_ready (w : Widget) (img : SelectedImage)
    (o : ProcessOutcome) (_hst : w.uploadState = UploadState.ready)
    (himg : w.image = some img) :
    (handleProcess w o).1.uploadState = UploadState.ready := by
  cases o <;> simp [handleProcess, himg]

/-- Witness for C1 at a concrete widget and outcome. -/
theorem C1_witness :
    (handleProcess
        ⟨UploadState.ready, some ⟨⟨"image/png".data, []⟩, 0⟩, none, none⟩
        (ProcessOutcome.thrown none)).1.uploadState = UploadState.ready :=
  C1_handleProcess_ends_ready _ ⟨⟨"image/png".data, []⟩, 0⟩
    (ProcessOutcome.thrown none) rfl rfl

/-- Claim C2: a non-POST request gets a 405 with an error field, and a
POST request whose body lacks `imageData` or lacks `mimeType` gets a 400
whose error message names the omitted field(s). -/
theorem C2_method_and_field_validation :
    (∀ (req : Request) (key : Option (List Char)) (o : ModelOutcome),
        req.method ≠ "POST".data →
        (handler req key o).resp.status = 405 ∧
        (handler req key o).resp.error.isSome = true) ∧
    (∀ (b : ReqBody) (key : Option (List Char)) (o : ModelOutcome),
        b.imageData = none ∨ b.mimeType = none →
        (handler ⟨"POST".data, some b⟩ key o).resp.status = 400 ∧
        ∃ msg, (handler ⟨"POST".data, some b⟩ key o).resp.error = some msg ∧
          (b.imageData = none → containsL "imageData".data msg = true) ∧
          (b.mimeType = none → containsL "mimeType".data msg = true)) := by
  constructor
  · intro req key o h
    simp [handler, h]
  · intro b key o h
    have h400 : handler ⟨"POST".data, some b⟩ key o =
        ⟨⟨400, some "Missing imageData or mimeType".data, none, none, none⟩, false⟩ := by
      rcases h with h | h <;> simp [handler, truthy, h]
    rw [h400]
    exact ⟨rfl, "Missing imageData or mimeType".data, rfl,
      fun _ => by decide, fun _ => by decide⟩

/-- Witness for C2: a GET request is rejected with 405, and a POST missing
`imageData` is rejected with 400. -/
theorem C2_witness :
    (handler ⟨"GET".data, none⟩ none (ModelOutcome.failure [])).resp.status = 405 ∧
    (handler ⟨"POST".data, some ⟨none, some "image/png".data⟩⟩ none
        (ModelOutcome.failure [])).resp.status = 400 :=
  ⟨(C2_method_and_field_validation.1 ⟨"GET".data, none⟩ none
      (ModelOutcome.failure []) (by decide)).1,
   (C2_method_and_field_validation.2 ⟨none, some "image/png".data⟩ none
      (ModelOutcome.failure []) (Or.inl rfl)).1⟩

/-- Counterexample to claim C3 as stated: on the reply `"```\nFence"`
(fences present), the handler's `raw` field is `"Fence"`, which is not a
prefix of the original reply text. -/
theorem C3_counterexample :
    (handler ⟨"POST".data, some ⟨some "x".data, some "image/png".data⟩⟩
        (some "k".data)
        (ModelOutcome.reply (some "```\nFence".data))).resp.status = 500 ∧
    (handler ⟨"POST".data, some ⟨some "x".data, some "image/png".data⟩⟩
        (some "k".data)
        (ModelOutcome.reply (some "```\nFence".data))).resp.raw =
      some "Fence".data ∧
    startsWithL "Fence".data "```\nFence".data = false := by
  decide

/-- Claim C3 amended: when the fence-stripped reply does not start with
`<svg`, the handler responds 500 with an error field and a `raw` field
that is a prefix of at most 300 characters of the fence-stripped reply
text (the text that was validated), not of the original reply. -/
theorem C3_amended_raw_bounded (b : ReqBody) (key : List Char)
    (content : Option (List Char))
    (h1 : truthy b.imageData = true) (h2 : truthy b.mimeType = true)
    (h3 : truthy (some key) = true)
    (h4 : startsWithL "<svg".data (stripFences (content.getD [])) = false) :
    (handler ⟨"POST".data, some b⟩ (some key)
        (ModelOutcome.reply content)).resp =
      ⟨500, some "Model did not return a valid SVG".data,
        some ((stripFences (content.getD [])).take 300), none, none⟩ ∧
    ((stripFences (content.getD [])).take 300).length ≤ 300 ∧
    (stripFences (content.getD [])).take 300 <+: stripFences (content.getD []) := by
  refine ⟨?_, ?_, List.take_prefix 300 _⟩
  · simp [handler, h1, h2, h3, h4]
  · rw [List.length_take]
    exact Nat.min_le_left _ _

/-- Witness for the amended C3 at the counterexample's input. -/
theorem C3_amended_witness :
    (handler ⟨"POST".data, some ⟨some "x".data, some "image/png".data⟩⟩
        (some "k".data)
        (ModelOutcome.reply (some "```\nFence".data))).resp =
      ⟨500, some "Model did not return a valid SVG".data, some "Fence".data,
        none, none⟩ := by
  have h := C3_amended_raw_bounded ⟨some "x".data, some "image/png".data⟩
    "k".data (some "```\nFence".data) (by decide) (by decide) (by decide) (by decide)
  have e : (stripFences ((some "```\nFence".data).getD [])).take 300 =
      "Fence".data := by decide
  rw [e] at h
  exact h.1

/-- Claim C4: for every well-formed model reply `s` (starting with `<svg`
and ending with `>`), wrapping `s` in leading and trailing code-fence
markers (with or without a language tag) and applying `stripFences`
yields exactly `s`. -/
theorem C4_strip_roundtrip (s : List Char)
    (h1 : startsWithL "<svg".data s = true) (h2 : s.getLast? = some '>') :
    stripFences ("```svg\n".data ++ (s ++ "\n```".data)) = s ∧
    stripFences ("```\n".data ++ (s ++ "\n```".data)) = s := by
  obtain ⟨t, hh⟩ : ∃ t, s = '<' :: t := by
    obtain ⟨t0, ht0⟩ := (startsWithL_iff "<svg".data s).1 h1
    exact ⟨'s' :: 'v' :: 'g' :: t0, by rw [← ht0]; rfl⟩
  obtain ⟨u, hu⟩ : ∃ u, s.reverse = '>' :: u := by
    have hhead : s.reverse.head? = some '>' := by
      rw [List.head?_reverse]; exact h2
    cases hr : s.reverse with
    | nil => rw [hr] at hhead; simp at hhead
    | cons c v =>
      rw [hr] at hhead
      simp only [List.head?_cons, Option.some.injEq] at hhead
      exact ⟨v, by rw [hhead]⟩
  have h3 : (s ++ ('\n' :: '`' :: '`' :: '`' :: ([] : List Char))).dropWhile jsWs =
      s ++ ('\n' :: '`' :: '`' :: '`' :: []) := by rw [hh]; rfl
  have h4 : (s ++ ('\n' :: '`' :: '`' :: '`' :: ([] : List Char))).reverse =
      '`' :: '`' :: '`' :: '\n' :: '>' :: u := by
    rw [List.reverse_append, hu]; rfl
  have h5 : stripTrailFence (s ++ ('\n' :: '`' :: '`' :: '`' :: [])) = s := by
    rw [stripTrail_eq _ u h4, ← hu, List.reverse_reverse]
  have h6 : trimL s = s := trimL_eq s t u hh hu
  constructor
  · show trimL (stripTrailFence
      (stripLeadFence ("```svg\n".data ++ (s ++ "\n```".data)))) = s
    rw [show ("```svg\n".data ++ (s ++ "\n```".data)) =
        ('`' :: '`' :: '`' :: 's' :: 'v' :: 'g' :: '\n' ::
          (s ++ ('\n' :: '`' :: '`' :: '`' :: []))) from rfl]
    rw [lead_svg, h3, h5, h6]
  · show trimL (stripTrailFence
      (stripLeadFence ("```\n".data ++ (s ++ "\n```".data)))) = s
    rw [show ("```\n".data ++ (s ++ "\n```".data)) =
        ('`' :: '`' :: '`' :: '\n' ::
          (s ++ ('\n' :: '`' :: '`' :: '`' :: []))) from rfl]
    rw [lead_plain, h3, h5, h6]

/-- Witness for C4 on the concrete reply `"<svg/>"`. -/
theorem C4_witness :
    stripFences ("```svg\n".data ++ ("<svg/>".data ++ "\n```".data)) =
      "<svg/>".data ∧
    stripFences ("```\n".data ++ ("<svg/>".data ++ "\n```".data)) =
      "<svg/>".data :=
  C4_strip_roundtrip "<svg/>".data (by decide) (by decide)

/-- Claim C5: on a valid POST request with the provider credential absent,
the handler responds 500 with the configuration-error message and does not
attempt the external model call. -/
theorem C5_missing_key_no_call (b : ReqBody) (o : ModelOutcome)
    (h1 : truthy b.imageData = true) (h2 : truthy b.mimeType = true) :
    (handler ⟨"POST".data, some b⟩ none o).resp.status = 500 ∧
    (handler ⟨"POST".data, some b⟩ none o).resp.error =
      some "GROQ_API_KEY is not configured on the server".data ∧
    (handler ⟨"POST".data, some b⟩ none o).calledModel = false := by
  refine ⟨?_, ?_, ?_⟩ <;> simp [handler, h1, h2, truthy_none]

/-- Witness for C5 on a concrete valid body. -/
theorem C5_witness :
    (handler ⟨"POST".data, some ⟨some "x".data, some "image/png".data⟩⟩ none
        (ModelOutcome.failure [])).resp.status = 500 ∧
    (handler ⟨"POST".data, some ⟨some "x".data, some "image/png".data⟩⟩ none
        (ModelOutcome.failure [])).resp.error =
      some "GROQ_API_KEY is not configured on the server".data ∧
    (handler ⟨"POST".data, some ⟨some "x".data, some "image/png".data⟩⟩ none
        (ModelOutcome.failure [])).calledModel = false :=
  C5_missing_key_no_call ⟨some "x".data, some "image/png".data⟩
    (ModelOutcome.failure []) (by decide) (by decide)

/-- Claim C6: accepting a valid image while a previous image is held
revokes exactly one display reference (the previous one), creates exactly
one new one, and stores the new image as the single held image; running
the effects over the live-reference multiset replaces the old reference
by the new one (no leak, no double-release). -/
theorem C6_replace_releases_one (w : Widget) (prev : SelectedImage)
    (f : File) (fresh : Nat) (himg : w.image = some prev)
    (ht : startsWithL "image/".data f.type = true) :
    (acceptFile w f fresh).2.filter isRevoke = [Effect.revokeUrl prev.url] ∧
    (acceptFile w f fresh).2.filter isCreate = [Effect.createUrl fresh] ∧
    (acceptFile w f fresh).1.image = some ⟨f, fresh⟩ ∧
    applyEffects [prev.url] (acceptFile w f fresh).2 = [fresh] := by
  refine ⟨?_, ?_, ?_, ?_⟩ <;>
    simp [acceptFile, ht, himg, isRevoke, isCreate, applyEffects, applyEffect]

/-- Witness for C6: replacing a held image with url 5 by a new file with
fresh url 7. -/
theorem C6_witness :
    (acceptFile ⟨UploadState.ready, some ⟨⟨"image/png".data, []⟩, 5⟩, none, none⟩
        ⟨"image/jpeg".data, []⟩ 7).2.filter isRevoke = [Effect.revokeUrl 5] ∧
    (acceptFile ⟨UploadState.ready, some ⟨⟨"image/png".data, []⟩, 5⟩, none, none⟩
        ⟨"image/jpeg".data, []⟩ 7).2.filter isCreate = [Effect.createUrl 7] ∧
    (acceptFile ⟨UploadState.ready, some ⟨⟨"image/png".data, []⟩, 5⟩, none, none⟩
        ⟨"image/jpeg".data, []⟩ 7).1.image = some ⟨⟨"image/jpeg".data, []⟩, 7⟩ ∧
    applyEffects [5]
      (acceptFile ⟨UploadState.ready, some ⟨⟨"image/png".data, []⟩, 5⟩, none, none⟩
        ⟨"image/jpeg".data, []⟩ 7).2 = [7] :=
  C6_replace_releases_one _ ⟨⟨"image/png".data, []⟩, 5⟩ ⟨"image/jpeg".data, []⟩ 7
    rfl (by decide)

/-- Claim C7: for a file whose content type does not start with
`image/`, `acceptFile` leaves the widget completely unchanged and
performs no effect. -/
theorem C7_reject_non_image (w : Widget) (f : File) (fresh : Nat)
    (h : startsWithL "image/".data f.type = false) :
    acceptFile w f fresh = (w, []) := by
  simp [acceptFile, h]

/-- Witness for C7 on a `text/plain` file. -/
theorem C7_witness :
    acceptFile ⟨UploadState.idle, none, none, none⟩ ⟨"text/plain".data, []⟩ 0 =
      (⟨UploadState.idle, none, none, none⟩, []) :=
  C7_reject_non_image _ ⟨"text/plain".data, []⟩ 0 (by decide)

/-- Claim C8: while the state is `processing` the process trigger is
disabled and firing it is inert (no state change, no request); invoking
process with no image held is likewise a no-op that issues no request,
both through the trigger and through `handleProcess` itself. -/
theorem C8_trigger_inert :
    (∀ (w : Widget) (o : ProcessOutcome),
        w.uploadState = UploadState.processing →
        processDisabled w = true ∧ processTrigger w o = (w, [])) ∧
    (∀ (w : Widget) (o : ProcessOutcome), w.image = none →
        processDisabled w = true ∧ processTrigger w o = (w, []) ∧
        handleProcess w o = (w, [])) := by
  constructor
  · intro w o h
    have hd : processDisabled w = true := by simp [processDisabled, h]
    exact ⟨hd, by simp [processTrigger, hd]⟩
  · intro w o h
    have hd : processDisabled w = true := by simp [processDisabled, h]
    exact ⟨hd, by simp [processTrigger, hd], by simp [handleProcess, h]⟩

/-- Witness for C8 on a processing widget with an image held. -/
theorem C8_witness :
    processTrigger
        ⟨UploadState.processing, some ⟨⟨"image/png".data, []⟩, 0⟩, none, none⟩
        (ProcessOutcome.ok none) =
      (⟨UploadState.processing, some ⟨⟨"image/png".data, []⟩, 0⟩, none, none⟩, []) :=
  (C8_trigger_inert.1 _ (ProcessOutcome.ok none) rfl).2

/-- Claim C9: dropping a non-image file while the widget is in state
`dragging` leaves the widget in state `dragging`: the drop handler
performs no state restoration when the file is rejected. -/
theorem C9_rejected_drop_stays_dragging (w : Widget) (f : File) (fresh : Nat)
    (hst : w.uploadState = UploadState.dragging)
    (ht : startsWithL "image/".data f.type = false) :
    onDrop w (some f) fresh = (w, []) ∧
    (onDrop w (some f) fresh).1.uploadState = UploadState.dragging := by
  have h : onDrop w (some f) fresh = (w, []) := by simp [onDrop, acceptFile, ht]
  exact ⟨h, by rw [h]; exact hst⟩

/-- Witness for C9: a `text/plain` drop while dragging. -/
theorem C9_witness :
    (onDrop ⟨UploadState.dragging, none, none, none⟩
        (some ⟨"text/plain".data, []⟩) 0).1.uploadState = UploadState.dragging :=
  (C9_rejected_drop_stays_dragging ⟨UploadState.dragging, none, none, none⟩
      ⟨"text/plain".data, []⟩ 0 rfl (by decide)).2

/-- Claim C10: a POST body in which `imageData` or `mimeType` is present
but equal to the empty string is answered 400 exactly as if the field
were absent (presence is tested by truthiness). -/
theorem C10_empty_field_as_absent :
    (∀ (mt : Option (List Char)) (key : Option (List Char)) (o : ModelOutcome),
        handler ⟨"POST".data, some ⟨some [], mt⟩⟩ key o =
          handler ⟨"POST".data, some ⟨none, mt⟩⟩ key o ∧
        (handler ⟨"POST".data, some ⟨some [], mt⟩⟩ key o).resp.status = 400 ∧
        (handler ⟨"POST".data, some ⟨some [], mt⟩⟩ key o).resp.error.isSome = true) ∧
    (∀ (idata : Option (List Char)) (key : Option (List Char)) (o : ModelOutcome),
        handler ⟨"POST".data, some ⟨idata, some []⟩⟩ key o =
          handler ⟨"POST".data, some ⟨idata, none⟩⟩ key o ∧
        (handler ⟨"POST".data, some ⟨idata, some []⟩⟩ key o).resp.status = 400 ∧
        (handler ⟨"POST".data, some ⟨idata, some []⟩⟩ key o).resp.error.isSome = true) := by
  constructor
  · intro mt key o
    refine ⟨?_, ?_, ?_⟩ <;> simp [handler, truthy]
  · intro idata key o
    refine ⟨?_, ?_, ?_⟩ <;> simp [handler, truthy]

end ImageProcessor
